import Mathlib

/-!
Verification of the SpeakEasy signal-analysis core.

This file gives a shallow embedding of the two analysis engines of the
repository — the audio engine (`AudioAnalyzer` in `src/unnamed/part_000`)
and the facial engine (`FacialAnalyzer` in `src/src/services/faceAnalysis.ts`)
— and settles the specification claims about them.

Modelling conventions:

* JavaScript numbers are modelled as exact rationals (`ℚ`); loop
  accumulators over byte data are kept in `ℤ`/`ℕ` wherever the source only
  adds and multiplies sample values, so that concrete runs reduce in the
  kernel.  Divisions by powers of two and by small constants are exact in
  `ℚ`, so no precision is lost relative to the idealized real-number
  reading of the source.
* `Math.sqrt` applied to a variance is kept abstract: every definition
  that calls it takes an explicit `sq : ℚ → ℚ` argument standing for the
  square-root routine, and every theorem is proved for all `sq`.
  Concrete witnesses instantiate `sq := Rat.sqrt`, and only ever consult
  it at arguments where the exact square root is rational (in fact only
  at `0`), where `Rat.sqrt` agrees with the real square root.
* The two places where a square root is *compared* or *rounded* rather
  than carried along — the volume RMS and the autocorrelation gate — are
  translated to exact integer characterizations; the derivation of each
  is documented at the definition.
* Platform objects (`AnalyserNode`, canvas, streams) are modelled away:
  the engines are always considered initialized, and each tick receives
  its sample window / frequency snapshot / pixel buffer as an explicit
  input, exactly as the spec's data model describes.
* `Math.random()` is modelled as an explicit per-tick input `rand`.
-/

set_option maxRecDepth 100000

/-- JavaScript `Math.round`: round half up, i.e. `⌊q + 1/2⌋`. -/
def jsRound (q : ℚ) : ℤ := ⌊q + 1 / 2⌋

/-- Push then trim, as the source does on every rolling history:
`push(x)` followed by `if (h.length > cap) h.shift()`. -/
def pushTrim (cap : ℕ) (x : α) (h : List α) : List α :=
  let h' := h ++ [x]
  if cap < h'.length then h'.tail else h'

/-- JavaScript `slice(-n)`: the last `n` entries (the whole list if shorter). -/
def lastN (n : ℕ) (l : List α) : List α := l.drop (l.length - n)

/-- Sum of a list of rationals, as the source's `reduce((a, b) => a + b, 0)`. -/
def qSum (l : List ℚ) : ℚ := l.foldl (· + ·) 0

/-- JavaScript `Math.min(...l)` for the nonempty lists it is applied to. -/
def listMin (l : List ℚ) : ℚ :=
  match l with
  | [] => 0
  | x :: xs => xs.foldl min x

/-- JavaScript `Math.max(...l)` for the nonempty lists it is applied to. -/
def listMax (l : List ℚ) : ℚ :=
  match l with
  | [] => 0
  | x :: xs => xs.foldl max x

namespace AudioAnalyzer

/-- Output struct of the audio engine (`AudioMetrics` in the source). -/
structure Metrics where
  clarity : ℤ
  fillerWords : ℤ
  wordsPerMinute : ℤ
  volumeLevel : ℕ
  pitch : ℤ
  deriving Repr, DecidableEq

/-- Mutable state of the audio engine that the analysed claims touch:
the two rolling histories and the speech-detected flag.  The source
fields `silenceDuration`, `lastVoiceStart` are never read or written
after construction and are omitted. -/
structure State where
  volumeHistory : List ℚ
  clarityHistory : List ℚ
  speechDetected : Bool
  deriving Repr

/-- Per-tick input: the time-domain window, the frequency-bin snapshot
(both unsigned bytes), the stream's sample rate, and the value produced
by `Math.random()` on this tick. -/
structure Input where
  timeDomainData : List ℕ
  frequencyData : List ℕ
  sampleRate : ℚ
  rand : ℚ

/-- Sum of `|sample - 128|` over the window; the source accumulates
`Math.abs((data[i] - 128) / 128)`, which equals this sum divided
by `128`. -/
def sumAbsDev (w : List ℕ) : ℕ :=
  (w.map (fun s => ((s : ℤ) - 128).natAbs)).sum

/-- `calculateVolume` of the source:

```js
sum += Math.abs((data[i] - 128) / 128);
const rms = Math.sqrt(sum / data.length);
return Math.round(Math.min(100, rms * 500));
```

With `S := sumAbsDev w` and `n := w.length`, the returned value is
`round(min(100, 500·√(S/(128n))))`.  This is computed exactly:

* `round(min(100, x)) = min(100, round(x))` for every real `x ≥ 0`
  (both sides are `100` when `x ≥ 100`, and otherwise `round x ≤ 100`);
* `round(500·√m) = ⌊(2·500·√m + 1)/2⌋ = ⌊(⌊√(10⁶·m)⌋ + 1)/2⌋`, using
  `⌊(y+1)/2⌋ = ⌊(⌊y⌋+1)/2⌋`;
* `⌊√(10⁶·S/(128n))⌋ = Nat.sqrt ⌊10⁶·S/(128n)⌋`, since `⌊√y⌋ = ⌊√⌊y⌋⌋`
  for `y ≥ 0`, and `⌊10⁶·S/(128n)⌋` is the natural-number division
  `10⁶·S / (128·n)`. -/
def calculateVolume (w : List ℕ) : ℕ :=
  min 100 ((Nat.sqrt (1000000 * sumAbsDev w / (128 * w.length)) + 1) / 2)

/-- Mean absolute normalized amplitude `mean(|(sample-128)/128|)` of a
window, the quantity C5 relates volumes by; it equals
`sumAbsDev w / (128 · length w)`. -/
def meanAbsAmp (w : List ℕ) : ℚ :=
  (sumAbsDev w : ℚ) / (128 * (w.length : ℚ))

/-- `detectSpeech`: `volumeLevel > this.volumeThreshold` with the
constructor value `volumeThreshold = 40`. -/
def detectSpeech (volumeLevel : ℕ) : Bool :=
  decide (40 < volumeLevel)

/-- `getFrequencyRange(start, end)`: sums bins `start ≤ i < min(length, end)`
and divides by `end - start`. -/
def getFrequencyRange (freq : List ℕ) (start stop : ℕ) : ℚ :=
  let binCount := min freq.length stop
  let s := ((List.range' start (binCount - start)).map (fun i => freq.getD i 0)).sum
  (s : ℚ) / ((stop : ℚ) - (start : ℚ))

/-- `analyzeSpeechFrequencies`: band averages for low/mid/high, a 0.7
penalty unless the mid band dominates both neighbours, and the
energy ratio `(mid + 0.5·high)/(low+mid+high)·100` (or 50 on zero
total energy).  The `!frequencyData` early return of the source is the
never-taken uninitialized case and is not modelled. -/
def analyzeSpeechFrequencies (freq : List ℕ) : ℚ :=
  let low := getFrequencyRange freq 0 5
  let mid := getFrequencyRange freq 5 15
  let high := getFrequencyRange freq 15 25
  let speechPattern : ℚ := if mid > low ∧ mid > high then 1 else 0.7
  let energyInSpeechBand := mid + high * 0.5
  let totalEnergy := low + mid + high
  let clarity : ℚ := if totalEnergy > 0 then energyInSpeechBand / totalEnergy * 100 else 50
  clarity * speechPattern

/-- `calculateVolumeStability`: 50 below 3 history entries, otherwise
`max(0, 100 - 100·stdDev/mean)` over the last 10 entries, where the
standard deviation is the square root (the abstract `sq`) of the mean
squared deviation. -/
def calculateVolumeStability (sq : ℚ → ℚ) (volumeHistory : List ℚ) : ℚ :=
  if volumeHistory.length < 3 then 50 else
  let recent := lastN 10 volumeHistory
  let avg := qSum recent / (recent.length : ℚ)
  let variance := qSum (recent.map (fun v => (v - avg) ^ 2))
  let stdDev := sq (variance / (recent.length : ℚ))
  let coefficient := if avg > 0 then stdDev / avg else 0
  max 0 (100 - coefficient * 100)

/-- `calculatePitchStability` (which, as the spec notes, actually tracks
clarity-history variance): 50 below 3 entries, else
`max(0, 100 - (stdDev/50)·100)` over the last 10 clarity entries. -/
def calculatePitchStability (sq : ℚ → ℚ) (clarityHistory : List ℚ) : ℚ :=
  if clarityHistory.length < 3 then 50 else
  let recent := lastN 10 clarityHistory
  let avg := qSum recent / (recent.length : ℚ)
  let variance := qSum (recent.map (fun c => (c - avg) ^ 2))
  let stdDev := sq (variance / (recent.length : ℚ))
  max 0 (100 - stdDev / 50 * 100)

/-- `estimateNoiseLevel`: 20 below 5 history entries, else
`min(100, 1.5·min(last 20 volumes))`. -/
def estimateNoiseLevel (volumeHistory : List ℚ) : ℚ :=
  if volumeHistory.length < 5 then 20 else
  let recentVolumes := lastN 20 volumeHistory
  min 100 (listMin recentVolumes * 1.5)

/-- `calculateClarity`: 0 below volume 15; otherwise the weighted blend
of the four quality signals, halved when not speaking and the volume
history holds *more than* 5 entries, then clamped to `[0,100]` and
rounded.  The histories passed in are the pre-push histories, exactly
as in the source (`analyze` pushes only after computing clarity). -/
def calculateClarity (sq : ℚ → ℚ) (volumeLevel : ℕ) (isSpeaking : Bool)
    (volumeHistory clarityHistory : List ℚ) (freq : List ℕ) : ℤ :=
  if volumeLevel < 15 then 0 else
  let speakerFreqQuality := analyzeSpeechFrequencies freq
  let volumeStability := calculateVolumeStability sq volumeHistory
  let pitchStability := calculatePitchStability sq clarityHistory
  let noiseLevel := estimateNoiseLevel volumeHistory
  let clarity :=
    speakerFreqQuality * 0.4 + volumeStability * 0.3 + pitchStability * 0.2 +
      (100 - noiseLevel) * 0.1
  let clarity := if isSpeaking = false ∧ 5 < volumeHistory.length then clarity * 0.5 else clarity
  jsRound (min 100 (max 0 clarity))

/-- Centered sample `data[i] - 128` (the source further divides by 128;
that scaling is carried in the exact correlation gate below). -/
def centered (w : List ℕ) (i : ℕ) : ℤ :=
  (w.getD i 0 : ℤ) - 128

/-- `sumProduct` of the autocorrelation inner loop, scaled by `128² = 16384`. -/
def acSumProduct (w : List ℕ) (lag : ℕ) : ℤ :=
  (List.range (w.length - lag)).foldl
    (fun acc i => acc + centered w i * centered w (i + lag)) 0

/-- `sumSquareA` of the autocorrelation inner loop, scaled by `16384`. -/
def acSumSquareA (w : List ℕ) (lag : ℕ) : ℤ :=
  (List.range (w.length - lag)).foldl
    (fun acc i => acc + centered w i * centered w i) 0

/-- `sumSquareB` of the autocorrelation inner loop, scaled by `16384`. -/
def acSumSquareB (w : List ℕ) (lag : ℕ) : ℤ :=
  (List.range (w.length - lag)).foldl
    (fun acc i => acc + centered w (i + lag) * centered w (i + lag)) 0

/-- The source's test `correlation > 0.9` with
`correlation = sumProduct / Math.sqrt(sumSquareA*sumSquareB + 0.001)`,
characterized exactly.  With `P, A, B` the integer sums above,
`sumProduct = P/16384`, `sumSquareA = A/16384`, `sumSquareB = B/16384`,
and the denominator `√(A·B/16384² + 1/1000)` is strictly positive, so

`correlation > 9/10
  ↔ P > 0 ∧ (P/16384)² > (81/100)·(A·B/16384² + 1/1000)
  ↔ P > 0 ∧ 100000·P² > 81000·A·B + 81·16384²`,

and `81·16384² = 21743271936`. -/
def corrAbovePoint9 (w : List ℕ) (lag : ℕ) : Bool :=
  let P := acSumProduct w lag
  let A := acSumSquareA w lag
  let B := acSumSquareB w lag
  decide (0 < P) && decide (81000 * A * B + 21743271936 < 100000 * (P * P))

/-- The lag at which the source's `autoCorrelate` loop returns, if any:
`for (lag = 10; lag < 1024; lag++)`, returning at a lag exactly when
`correlation > 0.9 && count === 0`, where `count` is incremented at the
end of every iteration that does not return.  (The accumulator `sum` of
the source is never read and is not modelled.) -/
def acScanCode (w : List ℕ) : ℕ → ℕ → ℕ → Option ℕ
  | _lag, 0, _count => none
  | lag, fuel + 1, count =>
    if corrAbovePoint9 w lag ∧ count = 0 then some lag
    else acScanCode w (lag + 1) fuel (count + 1)

/-- `autoCorrelate`: value returned by the lag scan — `(sampleRate/lag)*2`
at the returning lag, `0` if the loop runs to completion. -/
def autoCorrelate (w : List ℕ) (sampleRate : ℚ) : ℚ :=
  match acScanCode w 10 1014 0 with
  | some lag => sampleRate / (lag : ℚ) * 2
  | none => 0

/-- `calculatePitch`: `Math.round(this.autoCorrelate())`. -/
def calculatePitch (w : List ℕ) (sampleRate : ℚ) : ℤ :=
  jsRound (autoCorrelate w sampleRate)

/-- Modelled from the claim wording of C1, for comparison with the code:
the scan that returns at the *first* lag in `10..1023` whose correlation
exceeds 0.9, with no `count` guard. -/
def acScanFirst (w : List ℕ) : ℕ → ℕ → Option ℕ
  | _lag, 0 => none
  | lag, fuel + 1 =>
    if corrAbovePoint9 w lag then some lag
    else acScanFirst w (lag + 1) fuel

/-- Modelled from the claim wording of C1: pitch `(sampleRate/lag)*2` at
the first qualifying lag, `0` if none qualifies. -/
def autoCorrelateClaim (w : List ℕ) (sampleRate : ℚ) : ℚ :=
  match acScanFirst w 10 1014 with
  | some lag => sampleRate / (lag : ℚ) * 2
  | none => 0

/-- `detectFillerWords`: 0 below 2 history entries; else, when the last 5
volume entries span a range above 20, `Math.floor(Math.random() * 3)`
with `rand` the tick's random draw; else 0.  Called by `analyze` *after*
the histories have been pushed. -/
def detectFillerWords (rand : ℚ) (volumeHistory : List ℚ) : ℤ :=
  if volumeHistory.length < 2 then 0 else
  let recent := lastN 5 volumeHistory
  if listMax recent - listMin recent > 20 then ⌊rand * 3⌋ else 0

/-- `estimateWordsPerMinute`: 0 when not speaking or when the detected
pitch is 0, else `round(130 + (volumeStability/100)·40)`. -/
def estimateWordsPerMinute (sq : ℚ → ℚ) (isSpeaking : Bool) (w : List ℕ)
    (sampleRate : ℚ) (volumeHistory : List ℚ) : ℤ :=
  if isSpeaking = false then 0 else
  let frequency := calculatePitch w sampleRate
  let volumeVariation := calculateVolumeStability sq volumeHistory
  if frequency = 0 then 0 else
  jsRound (130 + volumeVariation / 100 * 40)

/-- The all-zero metrics struct returned on a disabled tick. -/
def zeroMetrics : Metrics :=
  ⟨0, 0, 0, 0, 0⟩

/-- One tick of the audio engine, `analyze(audioEnabled)`.

Disabled (or never-initialized) path: clear both rolling histories,
reset the speech-detected flag, return the all-zero struct.

Enabled path: compute volume, speech flag, clarity and words-per-minute
from the *pre-push* histories; push volume and clarity (capacity 30,
FIFO); then build the result, whose `fillerWords` reads the *post-push*
volume history (the source calls `detectFillerWords()` inside the
`return` object literal, after the pushes). -/
def analyze (sq : ℚ → ℚ) (st : State) (audioEnabled : Bool) (inp : Input) :
    Metrics × State :=
  if audioEnabled then
    let w := inp.timeDomainData
    let volumeLevel := calculateVolume w
    let isSpeaking := detectSpeech volumeLevel
    let clarity := calculateClarity sq volumeLevel isSpeaking
      st.volumeHistory st.clarityHistory inp.frequencyData
    let wordsPerMinute := estimateWordsPerMinute sq isSpeaking w inp.sampleRate st.volumeHistory
    let volumeHistory := pushTrim 30 (volumeLevel : ℚ) st.volumeHistory
    let clarityHistory := pushTrim 30 (clarity : ℚ) st.clarityHistory
    (⟨clarity, detectFillerWords inp.rand volumeHistory, wordsPerMinute,
      volumeLevel, calculatePitch w inp.sampleRate⟩,
     ⟨volumeHistory, clarityHistory, st.speechDetected⟩)
  else
    (zeroMetrics, ⟨[], [], false⟩)

end AudioAnalyzer

namespace FacialAnalyzer

/-- Output struct of the facial engine (`FacialMetrics` in the source). -/
structure Metrics where
  confidence : ℤ
  emotionalTone : String
  faceVisible : Bool
  eyeOpenness : ℤ
  brightness : ℤ
  deriving Repr, DecidableEq

/-- One video frame as read back from the canvas: a flat RGBA byte
buffer (row-major, 4 bytes per pixel) with its dimensions. -/
structure Frame where
  data : List ℕ
  width : ℕ
  height : ℕ
  deriving Repr

/-- Mutable state of the facial engine: the rolling histories and the
retained previous frame. -/
structure State where
  faceDetectionHistory : List Bool
  confidenceHistory : List ℚ
  headPositionHistory : List (ℚ × ℚ)
  smileHistory : List ℚ
  previousFrameData : Option Frame
  deriving Repr

/-- `Math.floor(frac * dim)` for the fractional region coordinates.  All
call sites use `frac ∈ [0,1]`, so the floor is nonnegative and `toNat`
is exact. -/
def fracIdx (frac : ℚ) (dim : ℕ) : ℕ :=
  (⌊frac * (dim : ℚ)⌋).toNat

/-- The loop indices `i = start; i < stop; i += step` (as a list). -/
def stepIdxs (start stop step : ℕ) : List ℕ :=
  (List.range ((stop - start + step - 1) / step)).map (fun k => start + step * k)

/-- Sum of the three colour bytes at byte offset `i`; the per-pixel
brightness `(data[i] + data[i+1] + data[i+2]) / 3` of the source is this
sum divided by 3 (carried exactly in `ℚ` where it is averaged, and as a
multiply-through-by-3 in the edge threshold). -/
def pixBrightSum (d : List ℕ) (i : ℕ) : ℕ :=
  d.getD i 0 + d.getD (i + 1) 0 + d.getD (i + 2) 0

/-- `startPixel` of `analyzeRegion`:
`Math.floor(startY*height)*width + Math.floor(startX*width)`.
(As in the source, this is a pixel-grid expression used directly as a
byte offset.) -/
def regionStart (f : Frame) (startX startY : ℚ) : ℕ :=
  fracIdx startY f.height * f.width + fracIdx startX f.width

/-- `endPixel` of `analyzeRegion`. -/
def regionStop (f : Frame) (endX endY : ℚ) : ℕ :=
  fracIdx endY f.height * f.width + fracIdx endX f.width

/-- The byte offsets visited by the `analyzeRegion` loop:
`for (i = startPixel; i < Math.min(endPixel, data.length); i += 4)`. -/
def regionIdxs (f : Frame) (startX startY endX endY : ℚ) : List ℕ :=
  let sp := regionStart f startX startY
  let ep := min (regionStop f endX endY) f.data.length
  (List.range ((ep - sp + 3) / 4)).map (fun k => sp + 4 * k)

/-- Result record of `analyzeRegion`. -/
structure Region where
  brightness : ℤ
  variance : ℚ
  deriving Repr

/-- `analyzeRegion`: mean brightness (rounded) and variance over the
visited offsets.  The mean of the per-pixel brightnesses `Tᵢ/3` over
`count` pixels is `(Σ Tᵢ)/(3·count)`, guarded by the `count > 0` check;
the variance divides by `max(1, count)` as in the source. -/
def analyzeRegion (f : Frame) (startX startY endX endY : ℚ) : Region :=
  let idxs := regionIdxs f startX startY endX endY
  let count := idxs.length
  let total := (idxs.map (fun i => pixBrightSum f.data i)).sum
  let average : ℚ := if 0 < count then (total : ℚ) / (3 * (count : ℚ)) else 0
  let variance :=
    qSum (idxs.map (fun i => ((pixBrightSum f.data i : ℚ) / 3 - average) ^ 2)) /
      (max 1 count : ℚ)
  ⟨jsRound average, variance⟩

/-- Edge test at grid point `(x, y)` of `detectEdges`: with `T` the
3-byte sums, `|c/3 - r/3| + |c/3 - d/3| > 30  ↔  |Tc-Tr| + |Tc-Td| > 90`
(the threshold comparison multiplied through by 3, exactly). -/
def edgeAt (d : List ℕ) (w y x : ℕ) : Bool :=
  let idx := (y * w + x) * 4
  let c := (pixBrightSum d idx : ℤ)
  let r := (pixBrightSum d (idx + 4) : ℤ)
  let dn := (pixBrightSum d (idx + w * 4) : ℤ)
  decide (90 < ((c - r).natAbs + (c - dn).natAbs))

/-- `detectEdges`: count of strided grid points
(`y = 1, 3, … < height-1`, `x = 1, 3, … < width-1`) whose brightness
gradient exceeds the threshold. -/
def detectEdges (f : Frame) : ℕ :=
  ((stepIdxs 1 (f.height - 1) 2).map (fun y =>
    ((stepIdxs 1 (f.width - 1) 2).filter (fun x => edgeAt f.data f.width y x)).length)).sum

/-- `detectFacialFeatures`: `detectEdges(frame) > 100`. -/
def detectFacialFeatures (f : Frame) : Bool :=
  decide (100 < detectEdges f)

/-- `detectEyeOpenness`: scaled average darkness of the two eye boxes,
clamped to `[0,100]` and rounded. -/
def detectEyeOpenness (f : Frame) : ℤ :=
  let leftEyeRegion := analyzeRegion f 0.3 0.35 0.42 0.48
  let rightEyeRegion := analyzeRegion f 0.58 0.35 0.7 0.48
  let leftEyeDarkness : ℚ := 255 - (leftEyeRegion.brightness : ℚ)
  let rightEyeDarkness : ℚ := 255 - (rightEyeRegion.brightness : ℚ)
  let avgEyeDarkness := (leftEyeDarkness + rightEyeDarkness) / 2
  jsRound (max 0 (min 100 (avgEyeDarkness / 150 * 100)))

/-- `detectMouthSmile`: scaled darkness of the mouth box; the *unrounded*
smile value is pushed onto the smile history (capacity 20) before the
rounded value is returned. -/
def detectMouthSmile (f : Frame) (smileHistory : List ℚ) : ℤ × List ℚ :=
  let mouthRegion := analyzeRegion f 0.35 0.6 0.65 0.75
  let mouthDarkness : ℚ := 255 - (mouthRegion.brightness : ℚ)
  let smile := max 0 (min 100 (mouthDarkness / 100 * 80))
  (jsRound smile, pushTrim 20 smile smileHistory)

/-- `estimateHeadPose`: `(yaw, pitch)` in `{-15, 0, 15}` by comparing
left/right and top/bottom half brightness. -/
def estimateHeadPose (f : Frame) : ℚ × ℚ :=
  let leftHalf := analyzeRegion f 0.1 0.2 0.4 0.8
  let rightHalf := analyzeRegion f 0.6 0.2 0.9 0.8
  let yawAngle : ℚ :=
    if leftHalf.brightness > rightHalf.brightness then -15
    else if rightHalf.brightness > leftHalf.brightness then 15 else 0
  let topHalf := analyzeRegion f 0.2 0.1 0.8 0.4
  let bottomHalf := analyzeRegion f 0.2 0.5 0.8 0.85
  let pitchAngle : ℚ :=
    if topHalf.brightness > bottomHalf.brightness then 15
    else if bottomHalf.brightness > topHalf.brightness then -15 else 0
  (yawAngle, pitchAngle)

/-- `detectFacialSymmetry`: strided mirrored-column comparison over the
upper-middle face region; each sampled pair contributes
`max(0, 100 - 0.5·|leftBrightness - rightBrightness|)`, brightness
difference carried exactly as `|Tl - Tr|/3`. -/
def detectFacialSymmetry (f : Frame) : ℤ :=
  let d := f.data
  let w := f.width
  let pairs :=
    (stepIdxs (fracIdx 0.2 f.height) (fracIdx 0.75 f.height) 4).flatMap (fun y =>
      (stepIdxs 10 (fracIdx 0.35 f.width) 5).map (fun x => (y, x)))
  let sampled := pairs.filter (fun p => (p.1 * w + (w - p.2)) * 4 < d.length)
  let sampleCount := sampled.length
  let symmetryScore := qSum (sampled.map (fun p =>
    let leftT := (pixBrightSum d ((p.1 * w + p.2) * 4) : ℤ)
    let rightT := (pixBrightSum d ((p.1 * w + (w - p.2)) * 4) : ℤ)
    max 0 (100 - (((leftT - rightT).natAbs : ℚ) / 3) * 0.5)))
  if 0 < sampleCount then jsRound (symmetryScore / (sampleCount : ℚ)) else 50

/-- `calculateFaceStability`: 50 below 3 confidence-history entries, else
`max(0, 100 - (stdDev/30)·100)` over the last 15 entries. -/
def calculateFaceStability (sq : ℚ → ℚ) (confidenceHistory : List ℚ) : ℚ :=
  if confidenceHistory.length < 3 then 50 else
  let recent := lastN 15 confidenceHistory
  let avg := qSum recent / (recent.length : ℚ)
  let variance := qSum (recent.map (fun c => (c - avg) ^ 2))
  let stdDev := sq (variance / (recent.length : ℚ))
  max 0 (100 - stdDev / 30 * 100)

/-- `calculateCenteredness`: 100 when the centre region is brighter than
the averaged periphery strips, else 50. -/
def calculateCenteredness (f : Frame) : ℚ :=
  let centerRegion := analyzeRegion f 0.25 0.25 0.75 0.75
  let peripheryAvg : ℚ :=
    (((analyzeRegion f 0 0 0.2 1).brightness : ℚ) +
      ((analyzeRegion f 0.8 0 1 1).brightness : ℚ)) / 2
  if (centerRegion.brightness : ℚ) > peripheryAvg then 100 else 50

/-- `calculateConfidence`: the weighted sum of the seven component
scores, clamped to `[0,100]` and rounded. -/
def calculateConfidence (brightness eyeOpenness smile symmetry : ℤ)
    (headPose : ℚ × ℚ) (stability centeredness : ℚ) : ℤ :=
  let brightnessScore : ℚ := min 100 ((brightness : ℚ) / 200 * 100)
  let eyeScore : ℚ := min 100 ((eyeOpenness : ℚ) / 80 * 100)
  let smileScore : ℚ := min 100 ((smile : ℚ) / 100 * 80)
  let symmetryScore : ℚ := (symmetry : ℚ) * 0.8
  let headAlignmentScore : ℚ := 100 - (|headPose.1| + |headPose.2|) * 2
  let overall :=
    brightnessScore * 0.15 + eyeScore * 0.25 + smileScore * 0.15 +
      symmetryScore * 0.15 + headAlignmentScore * 0.15 + stability * 0.1 +
      centeredness * 0.05
  jsRound (max 0 (min 100 overall))

/-- `determineEmotionalTone`: the fixed rule cascade, first match wins. -/
def determineEmotionalTone (brightness eyeOpenness smile yaw pitchAngle : ℚ) : String :=
  if eyeOpenness < 30 then "Nervous"
  else if brightness < 80 then "Uncertain"
  else if smile > 50 ∧ eyeOpenness > 60 then "Confident"
  else if smile > 40 then "Engaged"
  else if |pitchAngle| > 10 ∨ |yaw| > 10 then "Distracted"
  else if eyeOpenness > 70 ∧ brightness > 130 then "Alert"
  else "Neutral"

/-- `getDefaultMetrics`: the default struct. -/
def getDefaultMetrics : Metrics :=
  ⟨0, "Unknown", false, 0, 0⟩

/-- `detectFaceAndEmotions`: face-presence guard (centre brightness and
edge density), then the per-frame feature extraction.  Returns the
metrics together with the (possibly updated) smile history — the only
history this function pushes to, and only on the visible path. -/
def detectFaceAndEmotions (sq : ℚ → ℚ) (st : State) (f : Frame) :
    Metrics × List ℚ :=
  let centerRegion := analyzeRegion f 0.2 0.15 0.8 0.85
  let hasSignificantFeatures := detectFacialFeatures f
  if centerRegion.brightness < 40 ∨ hasSignificantFeatures = false then
    (getDefaultMetrics, st.smileHistory)
  else
    let brightness := centerRegion.brightness
    let symmetry := detectFacialSymmetry f
    let eyeOpenness := detectEyeOpenness f
    let ms := detectMouthSmile f st.smileHistory
    let headPose := estimateHeadPose f
    let faceStability := calculateFaceStability sq st.confidenceHistory
    let faceCenteredness := calculateCenteredness f
    let confidenceScore :=
      calculateConfidence brightness eyeOpenness ms.1 symmetry headPose
        faceStability faceCenteredness
    let emotionalTone :=
      determineEmotionalTone (brightness : ℚ) (eyeOpenness : ℚ) (ms.1 : ℚ)
        headPose.1 headPose.2
    (⟨confidenceScore, emotionalTone, true, eyeOpenness, brightness⟩, ms.2)

/-- One tick of the facial engine, `analyze(videoElement, videoEnabled)`.

Disabled (or never-initialized) path: clear all four rolling histories
and return the default struct.

Enabled path: run `detectFaceAndEmotions` on the frame, push the
face-visible flag (capacity 30, FIFO), push the confidence only when the
face is visible (capacity 30), and retain the frame as the previous
frame. -/
def analyze (sq : ℚ → ℚ) (st : State) (f : Frame) (videoEnabled : Bool) :
    Metrics × State :=
  if videoEnabled then
    let m := detectFaceAndEmotions sq st f
    let metrics := m.1
    let faceDetectionHistory := pushTrim 30 metrics.faceVisible st.faceDetectionHistory
    let confidenceHistory :=
      if metrics.faceVisible then pushTrim 30 (metrics.confidence : ℚ) st.confidenceHistory
      else st.confidenceHistory
    (metrics, ⟨faceDetectionHistory, confidenceHistory, st.headPositionHistory, m.2, some f⟩)
  else
    (getDefaultMetrics, ⟨[], [], [], [], st.previousFrameData⟩)

end FacialAnalyzer

/-- Variance branch of `calculateVolumeStability` (the ≥ 3-entry case),
named so the cold-start claim can state that the estimator follows it
once enough history has accumulated. -/
def volumeStabilityFormula (sq : ℚ → ℚ) (volumeHistory : List ℚ) : ℚ :=
  let recent := lastN 10 volumeHistory
  let avg := qSum recent / (recent.length : ℚ)
  let variance := qSum (recent.map (fun v => (v - avg) ^ 2))
  let stdDev := sq (variance / (recent.length : ℚ))
  let coefficient := if avg > 0 then stdDev / avg else 0
  max 0 (100 - coefficient * 100)

/-- Variance branch of `calculateFaceStability` (the ≥ 3-entry case). -/
def faceStabilityFormula (sq : ℚ → ℚ) (confidenceHistory : List ℚ) : ℚ :=
  let recent := lastN 15 confidenceHistory
  let avg := qSum recent / (recent.length : ℚ)
  let variance := qSum (recent.map (fun c => (c - avg) ^ 2))
  let stdDev := sq (variance / (recent.length : ℚ))
  max 0 (100 - stdDev / 30 * 100)

/-- A whole audio run from the freshly constructed engine. -/
def audioRun (sq : ℚ → ℚ) (ticks : List (Bool × AudioAnalyzer.Input)) :
    AudioAnalyzer.State :=
  ticks.foldl (fun st t => (AudioAnalyzer.analyze sq st t.1 t.2).2) ⟨[], [], false⟩

/-- A whole facial run from the freshly constructed engine. -/
def facialRun (sq : ℚ → ℚ) (ticks : List (Bool × FacialAnalyzer.Frame)) :
    FacialAnalyzer.State :=
  ticks.foldl (fun st t => (FacialAnalyzer.analyze sq st t.2 t.1).2) ⟨[], [], [], [], none⟩

/-! ## Claim theorems -/

/-- C2: for every prior internal state of either engine, a disabled tick
(`audioEnabled = false` / `videoEnabled = false`) returns exactly the
all-zero / default metrics struct (audio: all fields 0; facial:
confidence 0, tone "Unknown", face not visible, eye openness 0,
brightness 0) and leaves every rolling history empty. -/
theorem disabled_tick_resets_everything (sq : ℚ → ℚ)
    (st : AudioAnalyzer.State) (inp : AudioAnalyzer.Input)
    (fst : FacialAnalyzer.State) (f : FacialAnalyzer.Frame) :
    AudioAnalyzer.analyze sq st false inp =
      (⟨0, 0, 0, 0, 0⟩, ⟨[], [], false⟩) ∧
    FacialAnalyzer.analyze sq fst f false =
      (⟨0, "Unknown", false, 0, 0⟩, ⟨[], [], [], [], fst.previousFrameData⟩) :=
  ⟨rfl, rfl⟩

/-- C6: on every enabled audio tick whose computed volume level is below
15, the returned clarity is exactly 0, whatever the frequency bins and
the rolling histories hold. -/
theorem clarity_zero_below_volume15 (sq : ℚ → ℚ) (st : AudioAnalyzer.State)
    (inp : AudioAnalyzer.Input)
    (h : AudioAnalyzer.calculateVolume inp.timeDomainData < 15) :
    (AudioAnalyzer.analyze sq st true inp).1.clarity = 0 := by
  simp only [AudioAnalyzer.analyze, if_true, AudioAnalyzer.calculateClarity, if_pos h]

/-- C6 witness: a silent window (all samples 128) has volume 0 < 15 and
clarity 0. -/
theorem clarity_zero_below_volume15_witness :
    AudioAnalyzer.calculateVolume (List.replicate 8 128) < 15 ∧
    (AudioAnalyzer.analyze Rat.sqrt ⟨[], [], false⟩ true
      ⟨List.replicate 8 128, [], 44100, 0⟩).1.clarity = 0 := by
  have hv : AudioAnalyzer.calculateVolume (List.replicate 8 128) < 15 := by
    simp [AudioAnalyzer.calculateVolume, AudioAnalyzer.sumAbsDev]
  exact ⟨hv, clarity_zero_below_volume15 Rat.sqrt _ _ hv⟩

/-- C8: the emotional-tone rules fire in the fixed order Nervous,
Uncertain, Confident, Engaged, Distracted, Alert, Neutral, first match
winning; in particular every visible face with eye openness below 30 is
"Nervous" no matter what the smile, brightness and head pose are. -/
theorem tone_precedence (b e s y p : ℚ) :
    (e < 30 → FacialAnalyzer.determineEmotionalTone b e s y p = "Nervous") ∧
    (¬ e < 30 → b < 80 →
      FacialAnalyzer.determineEmotionalTone b e s y p = "Uncertain") ∧
    (¬ e < 30 → ¬ b < 80 → s > 50 ∧ e > 60 →
      FacialAnalyzer.determineEmotionalTone b e s y p = "Confident") ∧
    (¬ e < 30 → ¬ b < 80 → ¬ (s > 50 ∧ e > 60) → s > 40 →
      FacialAnalyzer.determineEmotionalTone b e s y p = "Engaged") ∧
    (¬ e < 30 → ¬ b < 80 → ¬ (s > 50 ∧ e > 60) → ¬ s > 40 →
      |p| > 10 ∨ |y| > 10 →
      FacialAnalyzer.determineEmotionalTone b e s y p = "Distracted") ∧
    (¬ e < 30 → ¬ b < 80 → ¬ (s > 50 ∧ e > 60) → ¬ s > 40 →
      ¬ (|p| > 10 ∨ |y| > 10) → e > 70 ∧ b > 130 →
      FacialAnalyzer.determineEmotionalTone b e s y p = "Alert") ∧
    (¬ e < 30 → ¬ b < 80 → ¬ (s > 50 ∧ e > 60) → ¬ s > 40 →
      ¬ (|p| > 10 ∨ |y| > 10) → ¬ (e > 70 ∧ b > 130) →
      FacialAnalyzer.determineEmotionalTone b e s y p = "Neutral") := by
  unfold FacialAnalyzer.determineEmotionalTone
  refine ⟨?_, ?_, ?_, ?_, ?_, ?_, ?_⟩
  · intro h1; simp [h1]
  · intro h1 h2; simp [h1, h2]
  · intro h1 h2 h3; simp [h1, h2, h3]
  · intro h1 h2 h3 h4; simp [h1, h2, h3, h4]
  · intro h1 h2 h3 h4 h5; simp [h1, h2, h3, h4, h5]
  · intro h1 h2 h3 h4 h5 h6; simp [h1, h2, h3, h4, h5, h6]
  · intro h1 h2 h3 h4 h5 h6; simp [h1, h2, h3, h4, h5, h6]

/-- C8 witness: eye openness 20 (< 30) forces "Nervous" even with a
bright, smiling, well-aligned face that would otherwise be "Confident". -/
theorem tone_precedence_witness :
    (20 : ℚ) < 30 ∧
    FacialAnalyzer.determineEmotionalTone 200 20 60 0 0 = "Nervous" :=
  ⟨by norm_num, (tone_precedence 200 20 60 0 0).1 (by norm_num)⟩

/-- C9: a disabled tick empties the histories, and the stability
estimators cold-start at exactly 50 whenever the relevant history holds
fewer than 3 entries; from 3 entries on they follow the variance
formula (for instance, a constant 3-entry history scores 100, since its
variance — hence its square root — is 0). -/
theorem stability_cold_start (sq : ℚ → ℚ)
    (st : AudioAnalyzer.State) (inp : AudioAnalyzer.Input)
    (fst : FacialAnalyzer.State) (fr : FacialAnalyzer.Frame)
    (h : List ℚ) (hlt : h.length < 3) (h2 : List ℚ) (hge : 3 ≤ h2.length)
    (x : ℚ) (hx : 0 < x) (hsq : sq 0 = 0) :
    (AudioAnalyzer.analyze sq st false inp).2.volumeHistory = [] ∧
    (AudioAnalyzer.analyze sq st false inp).2.clarityHistory = [] ∧
    (FacialAnalyzer.analyze sq fst fr false).2.confidenceHistory = [] ∧
    AudioAnalyzer.calculateVolumeStability sq h = 50 ∧
    FacialAnalyzer.calculateFaceStability sq h = 50 ∧
    AudioAnalyzer.calculateVolumeStability sq h2 = volumeStabilityFormula sq h2 ∧
    FacialAnalyzer.calculateFaceStability sq h2 = faceStabilityFormula sq h2 ∧
    AudioAnalyzer.calculateVolumeStability sq [x, x, x] = 100 ∧
    FacialAnalyzer.calculateFaceStability sq [x, x, x] = 100 := by
  have hxx : qSum [x, x, x] / ((3 : ℕ) : ℚ) = x := by
    simp [qSum]; ring
  refine ⟨rfl, rfl, rfl, ?_, ?_, ?_, ?_, ?_, ?_⟩
  · simp only [AudioAnalyzer.calculateVolumeStability, if_pos hlt]
  · simp only [FacialAnalyzer.calculateFaceStability, if_pos hlt]
  · simp only [AudioAnalyzer.calculateVolumeStability, volumeStabilityFormula,
      if_neg (by omega : ¬ h2.length < 3)]
  · simp only [FacialAnalyzer.calculateFaceStability, faceStabilityFormula,
      if_neg (by omega : ¬ h2.length < 3)]
  · have hq : qSum [x, x, x] = 3 * x := by simp [qSum]; ring
    have h3x : (0 : ℚ) < 3 * x := by linarith
    simp only [AudioAnalyzer.calculateVolumeStability, lastN]
    rw [if_neg (by simp)]
    simp only [List.length_cons, List.length_nil, List.drop, hq]
    norm_num
    simp [qSum, hsq, hx]
  · have hq : qSum [x, x, x] = 3 * x := by simp [qSum]; ring
    simp only [FacialAnalyzer.calculateFaceStability, lastN]
    rw [if_neg (by simp)]
    simp only [List.length_cons, List.length_nil, List.drop, hq]
    norm_num
    simp [qSum, hsq]

/-- C9 witness: concrete instances — the empty history (after a disabled
tick) scores 50 on both estimators, and a constant history of three
entries scores 100 (its variance is 0 and `Rat.sqrt 0 = 0`, so the
estimator now follows the variance). -/
theorem stability_cold_start_witness :
    ([] : List ℚ).length < 3 ∧ 3 ≤ ([(4 : ℚ), 5, 6] : List ℚ).length ∧
    (0 : ℚ) < 2 ∧ Rat.sqrt 0 = 0 ∧
    AudioAnalyzer.calculateVolumeStability Rat.sqrt [] = 50 ∧
    AudioAnalyzer.calculateVolumeStability Rat.sqrt [2, 2, 2] = 100 ∧
    FacialAnalyzer.calculateFaceStability Rat.sqrt [2, 2, 2] = 100 := by
  have H := stability_cold_start Rat.sqrt ⟨[], [], false⟩ ⟨[], [], 44100, 0⟩
    ⟨[], [], [], [], none⟩ ⟨[], 0, 0⟩ [] (by decide) [(4 : ℚ), 5, 6] (by decide)
    2 (by decide) (by decide)
  exact ⟨by decide, by decide, by decide, by decide, H.2.2.2.1,
    H.2.2.2.2.2.2.2.1, H.2.2.2.2.2.2.2.2⟩

/-- Appending to a history below or at capacity keeps it within capacity. -/
theorem pushTrim_length_le {α : Type} (cap : ℕ) (x : α) (h : List α)
    (hh : h.length ≤ cap) : (pushTrim cap x h).length ≤ cap := by
  simp only [pushTrim]
  split
  · simp only [List.length_tail, List.length_append, List.length_cons, List.length_nil]
    omega
  · simp only [List.length_append, List.length_cons, List.length_nil] at *
    omega

/-- Appending to a history exactly at (positive) capacity drops exactly
the oldest entry and keeps the rest in order. -/
theorem pushTrim_at_cap {α : Type} (cap : ℕ) (x : α) (h : List α)
    (hpos : 0 < cap) (hlen : h.length = cap) :
    pushTrim cap x h = h.tail ++ [x] := by
  cases h with
  | nil => simp at hlen; omega
  | cons a t =>
    have hlt : cap < ((a :: t) ++ [x]).length := by
      simp only [List.length_append, List.length_cons, List.length_nil]
      simp only [List.length_cons] at hlen
      omega
    simp only [pushTrim]
    rw [if_pos hlt]
    rfl

/-- One audio tick preserves the 30-entry caps on both histories. -/
theorem audio_tick_caps (sq : ℚ → ℚ) (st : AudioAnalyzer.State) (e : Bool)
    (inp : AudioAnalyzer.Input)
    (h1 : st.volumeHistory.length ≤ 30) (h2 : st.clarityHistory.length ≤ 30) :
    (AudioAnalyzer.analyze sq st e inp).2.volumeHistory.length ≤ 30 ∧
    (AudioAnalyzer.analyze sq st e inp).2.clarityHistory.length ≤ 30 := by
  cases e with
  | false => simp [AudioAnalyzer.analyze]
  | true =>
    simp only [AudioAnalyzer.analyze, if_true]
    exact ⟨pushTrim_length_le 30 _ _ h1, pushTrim_length_le 30 _ _ h2⟩

/-- The smile history returned by `detectFaceAndEmotions` respects the
20-entry cap. -/
theorem dfae_smile_cap (sq : ℚ → ℚ) (st : FacialAnalyzer.State)
    (f : FacialAnalyzer.Frame) (h : st.smileHistory.length ≤ 20) :
    (FacialAnalyzer.detectFaceAndEmotions sq st f).2.length ≤ 20 := by
  simp only [FacialAnalyzer.detectFaceAndEmotions]
  split
  · exact h
  · simp only [FacialAnalyzer.detectMouthSmile]
    exact pushTrim_length_le 20 _ _ h

/-- One facial tick preserves the caps on all three pushed histories. -/
theorem facial_tick_caps (sq : ℚ → ℚ) (st : FacialAnalyzer.State)
    (f : FacialAnalyzer.Frame) (e : Bool)
    (h1 : st.faceDetectionHistory.length ≤ 30)
    (h2 : st.confidenceHistory.length ≤ 30)
    (h3 : st.smileHistory.length ≤ 20) :
    (FacialAnalyzer.analyze sq st f e).2.faceDetectionHistory.length ≤ 30 ∧
    (FacialAnalyzer.analyze sq st f e).2.confidenceHistory.length ≤ 30 ∧
    (FacialAnalyzer.analyze sq st f e).2.smileHistory.length ≤ 20 := by
  cases e with
  | false => simp [FacialAnalyzer.analyze]
  | true =>
    simp only [FacialAnalyzer.analyze, if_true]
    refine ⟨pushTrim_length_le 30 _ _ h1, ?_, dfae_smile_cap sq st f h3⟩
    split
    · exact pushTrim_length_le 30 _ _ h2
    · exact h2

/-- Cap invariant along any audio run. -/
theorem audioRun_caps (sq : ℚ → ℚ) (ticks : List (Bool × AudioAnalyzer.Input)) :
    (audioRun sq ticks).volumeHistory.length ≤ 30 ∧
    (audioRun sq ticks).clarityHistory.length ≤ 30 := by
  suffices H : ∀ (ts : List (Bool × AudioAnalyzer.Input)) (st : AudioAnalyzer.State),
      st.volumeHistory.length ≤ 30 → st.clarityHistory.length ≤ 30 →
      (ts.foldl (fun st t => (AudioAnalyzer.analyze sq st t.1 t.2).2) st).volumeHistory.length ≤ 30 ∧
      (ts.foldl (fun st t => (AudioAnalyzer.analyze sq st t.1 t.2).2) st).clarityHistory.length ≤ 30 by
    exact H ticks ⟨[], [], false⟩ (by simp) (by simp)
  intro ts
  induction ts with
  | nil => intro st hst1 hst2; exact ⟨hst1, hst2⟩
  | cons t ts ih =>
    intro st hst1 hst2
    have := audio_tick_caps sq st t.1 t.2 hst1 hst2
    exact ih _ this.1 this.2

/-- Cap invariant along any facial run. -/
theorem facialRun_caps (sq : ℚ → ℚ) (ticks : List (Bool × FacialAnalyzer.Frame)) :
    (facialRun sq ticks).faceDetectionHistory.length ≤ 30 ∧
    (facialRun sq ticks).confidenceHistory.length ≤ 30 ∧
    (facialRun sq ticks).smileHistory.length ≤ 20 := by
  suffices H : ∀ (ts : List (Bool × FacialAnalyzer.Frame)) (st : FacialAnalyzer.State),
      st.faceDetectionHistory.length ≤ 30 → st.confidenceHistory.length ≤ 30 →
      st.smileHistory.length ≤ 20 →
      (ts.foldl (fun st t => (FacialAnalyzer.analyze sq st t.2 t.1).2) st).faceDetectionHistory.length ≤ 30 ∧
      (ts.foldl (fun st t => (FacialAnalyzer.analyze sq st t.2 t.1).2) st).confidenceHistory.length ≤ 30 ∧
      (ts.foldl (fun st t => (FacialAnalyzer.analyze sq st t.2 t.1).2) st).smileHistory.length ≤ 20 by
    exact H ticks ⟨[], [], [], [], none⟩ (by simp) (by simp) (by simp)
  intro ts
  induction ts with
  | nil => intro st hst1 hst2 hst3; exact ⟨hst1, hst2, hst3⟩
  | cons t ts ih =>
    intro st hst1 hst2 hst3
    have := facial_tick_caps sq st t.2 t.1 hst1 hst2 hst3
    exact ih _ this.1 this.2.1 this.2.2

/-- C4: after any number of ticks, in any order of enabled/disabled
flags, every rolling history stays within its capacity (audio volume
and clarity ≤ 30; facial face-visibility and confidence ≤ 30; smile
≤ 20), and eviction is strictly FIFO: appending to a history exactly at
(positive) capacity drops exactly the oldest entry and preserves the
order of the rest. -/
theorem history_caps_and_fifo (sq : ℚ → ℚ)
    (aticks : List (Bool × AudioAnalyzer.Input))
    (fticks : List (Bool × FacialAnalyzer.Frame)) :
    (audioRun sq aticks).volumeHistory.length ≤ 30 ∧
    (audioRun sq aticks).clarityHistory.length ≤ 30 ∧
    (facialRun sq fticks).faceDetectionHistory.length ≤ 30 ∧
    (facialRun sq fticks).confidenceHistory.length ≤ 30 ∧
    (facialRun sq fticks).smileHistory.length ≤ 20 ∧
    (∀ (x : ℚ) (h : List ℚ), h.length = 30 → pushTrim 30 x h = h.tail ++ [x]) ∧
    (∀ (x : ℚ) (h : List ℚ), h.length = 20 → pushTrim 20 x h = h.tail ++ [x]) ∧
    (∀ (x : Bool) (h : List Bool), h.length = 30 → pushTrim 30 x h = h.tail ++ [x]) := by
  obtain ⟨a1, a2⟩ := audioRun_caps sq aticks
  obtain ⟨f1, f2, f3⟩ := facialRun_caps sq fticks
  exact ⟨a1, a2, f1, f2, f3,
    fun x h hh => pushTrim_at_cap 30 x h (by omega) hh,
    fun x h hh => pushTrim_at_cap 20 x h (by omega) hh,
    fun x h hh => pushTrim_at_cap 30 x h (by omega) hh⟩

/-- C4 witness: a concrete run satisfies the caps, and pushing onto a
concrete 30-entry history evicts exactly the head. -/
theorem history_caps_and_fifo_witness :
    (List.replicate 30 (7 : ℚ)).length = 30 ∧
    pushTrim 30 (9 : ℚ) (List.replicate 30 7) = (List.replicate 30 (7 : ℚ)).tail ++ [9] ∧
    (audioRun Rat.sqrt []).volumeHistory.length ≤ 30 := by
  have H := history_caps_and_fifo Rat.sqrt [] []
  exact ⟨by decide, H.2.2.2.2.2.1 9 (List.replicate 30 7) (by decide), H.1⟩

/-- C5: the computed volume level is an integer in `[0, 100]` (it is a
natural number by type), and it is non-decreasing in the mean absolute
normalized amplitude: of two nonempty windows, the one with the larger
mean absolute amplitude never gets the smaller volume. -/
theorem volume_bounded_monotone (w1 w2 : List ℕ) (h1ne : w1 ≠ []) (h2ne : w2 ≠ [])
    (hm : AudioAnalyzer.meanAbsAmp w1 ≤ AudioAnalyzer.meanAbsAmp w2) :
    AudioAnalyzer.calculateVolume w1 ≤ 100 ∧
    AudioAnalyzer.calculateVolume w2 ≤ 100 ∧
    AudioAnalyzer.calculateVolume w1 ≤ AudioAnalyzer.calculateVolume w2 := by
  refine ⟨min_le_left _ _, min_le_left _ _, ?_⟩
  have hn1 : 0 < w1.length := List.length_pos.mpr h1ne
  have hn2 : 0 < w2.length := List.length_pos.mpr h2ne
  set S1 := AudioAnalyzer.sumAbsDev w1 with hS1
  set S2 := AudioAnalyzer.sumAbsDev w2 with hS2
  have hb1 : (0 : ℚ) < 128 * (w1.length : ℚ) := by positivity
  have hb2 : (0 : ℚ) < 128 * (w2.length : ℚ) := by positivity
  have hcross : (S1 : ℚ) * (128 * (w2.length : ℚ)) ≤ (S2 : ℚ) * (128 * (w1.length : ℚ)) :=
    (div_le_div_iff₀ hb1 hb2).mp hm
  have hcrossN : S1 * (128 * w2.length) ≤ S2 * (128 * w1.length) := by
    exact_mod_cast hcross
  -- numerators and denominators of the scaled Nat divisions
  have hkey : 1000000 * S1 / (128 * w1.length) ≤ 1000000 * S2 / (128 * w2.length) := by
    have hb1n : 0 < 128 * w1.length := by omega
    have hb2n : 0 < 128 * w2.length := by omega
    rw [Nat.le_div_iff_mul_le hb2n]
    have step1 : 1000000 * S1 / (128 * w1.length) * (128 * w2.length) * (128 * w1.length) ≤
        1000000 * S2 * (128 * w1.length) := by
      calc 1000000 * S1 / (128 * w1.length) * (128 * w2.length) * (128 * w1.length)
          = 1000000 * S1 / (128 * w1.length) * (128 * w1.length) * (128 * w2.length) := by ring
        _ ≤ 1000000 * S1 * (128 * w2.length) :=
            Nat.mul_le_mul_right _ (Nat.div_mul_le_self _ _)
        _ = 1000000 * (S1 * (128 * w2.length)) := by ring
        _ ≤ 1000000 * (S2 * (128 * w1.length)) := Nat.mul_le_mul_left _ hcrossN
        _ = 1000000 * S2 * (128 * w1.length) := by ring
    exact Nat.le_of_mul_le_mul_right step1 hb1n
  exact min_le_min le_rfl
    (Nat.div_le_div_right (Nat.succ_le_succ (Nat.sqrt_le_sqrt hkey)))

/-- C5 witness: the silent window has mean absolute amplitude 0 and its
volume is no larger than that of a window with deviation. -/
theorem volume_bounded_monotone_witness :
    (List.replicate 4 128 : List ℕ) ≠ [] ∧ ([228, 28, 128, 128] : List ℕ) ≠ [] ∧
    AudioAnalyzer.meanAbsAmp (List.replicate 4 128) ≤
      AudioAnalyzer.meanAbsAmp [228, 28, 128, 128] ∧
    AudioAnalyzer.calculateVolume (List.replicate 4 128) ≤
      AudioAnalyzer.calculateVolume [228, 28, 128, 128] := by
  have hmm : AudioAnalyzer.meanAbsAmp (List.replicate 4 128) ≤
      AudioAnalyzer.meanAbsAmp [228, 28, 128, 128] := by
    simp [AudioAnalyzer.meanAbsAmp, AudioAnalyzer.sumAbsDev]
    norm_num
  exact ⟨by decide, by decide, hmm,
    (volume_bounded_monotone _ _ (by decide) (by decide) hmm).2.2⟩

/-- C7: on an enabled facial tick whose frame has centre brightness
below 40 or edge count at most 100, the engine returns the default
struct (confidence 0, tone "Unknown", not visible, eye openness 0,
brightness 0) and does not append to the confidence history. -/
theorem invisible_face_defaults (sq : ℚ → ℚ) (st : FacialAnalyzer.State)
    (f : FacialAnalyzer.Frame)
    (h : (FacialAnalyzer.analyzeRegion f 0.2 0.15 0.8 0.85).brightness < 40 ∨
      FacialAnalyzer.detectEdges f ≤ 100) :
    (FacialAnalyzer.analyze sq st f true).1 = ⟨0, "Unknown", false, 0, 0⟩ ∧
    (FacialAnalyzer.analyze sq st f true).2.confidenceHistory = st.confidenceHistory := by
  have hguard : (FacialAnalyzer.analyzeRegion f 0.2 0.15 0.8 0.85).brightness < 40 ∨
      FacialAnalyzer.detectFacialFeatures f = false := by
    rcases h with h | h
    · exact Or.inl h
    · right
      simp only [FacialAnalyzer.detectFacialFeatures, decide_eq_false_iff_not]
      omega
  have hd : FacialAnalyzer.detectFaceAndEmotions sq st f =
      (FacialAnalyzer.getDefaultMetrics, st.smileHistory) := by
    simp only [FacialAnalyzer.detectFaceAndEmotions]
    rw [if_pos hguard]
  constructor
  · simp [FacialAnalyzer.analyze, hd, FacialAnalyzer.getDefaultMetrics]
  · simp [FacialAnalyzer.analyze, hd, FacialAnalyzer.getDefaultMetrics]

/-- C7 witness: a uniformly black 4×4 frame has centre brightness 0 and
yields the default metrics with no confidence-history append. -/
theorem invisible_face_defaults_witness :
    (FacialAnalyzer.analyzeRegion ⟨List.replicate 64 0, 4, 4⟩ 0.2 0.15 0.8 0.85).brightness < 40 ∧
    (FacialAnalyzer.analyze Rat.sqrt ⟨[], [], [], [], none⟩
      ⟨List.replicate 64 0, 4, 4⟩ true).1 = ⟨0, "Unknown", false, 0, 0⟩ := by
  have hb : (FacialAnalyzer.analyzeRegion ⟨List.replicate 64 0, 4, 4⟩ 0.2 0.15 0.8 0.85).brightness = 0 := by
    have hsp : FacialAnalyzer.regionStart ⟨List.replicate 64 0, 4, 4⟩ 0.2 0.15 = 0 := by
      norm_num [FacialAnalyzer.regionStart, FacialAnalyzer.fracIdx]
    have hep : FacialAnalyzer.regionStop ⟨List.replicate 64 0, 4, 4⟩ 0.8 0.85 = 15 := by
      norm_num [FacialAnalyzer.regionStop, FacialAnalyzer.fracIdx]
      decide
    have hidx : FacialAnalyzer.regionIdxs ⟨List.replicate 64 0, 4, 4⟩ 0.2 0.15 0.8 0.85 = [0, 4, 8, 12] := by
      simp only [FacialAnalyzer.regionIdxs, hsp, hep]
      decide
    have hT : (([0, 4, 8, 12] : List ℕ).map
        (fun i => FacialAnalyzer.pixBrightSum (List.replicate 64 0) i)).sum = 0 := by decide
    simp only [FacialAnalyzer.analyzeRegion, hidx]
    rw [hT]
    norm_num [jsRound]
  have hlt : (FacialAnalyzer.analyzeRegion ⟨List.replicate 64 0, 4, 4⟩ 0.2 0.15 0.8 0.85).brightness < 40 := by
    rw [hb]; norm_num
  exact ⟨hlt, (invisible_face_defaults Rat.sqrt ⟨[], [], [], [], none⟩
    ⟨List.replicate 64 0, 4, 4⟩ (Or.inl hlt)).1⟩

/-- A read from a byte buffer (default 0) never exceeds 255 when every
stored byte is a byte. -/
theorem getD_byte_le (d : List ℕ) (hb : ∀ b ∈ d, b ≤ 255) (i : ℕ) :
    d.getD i 0 ≤ 255 := by
  by_cases h : i < d.length
  · rw [List.getD_eq_getElem d 0 h]
    exact hb _ (List.getElem_mem h)
  · rw [List.getD_eq_default d 0 (by omega)]
    omega

/-- The three-byte sum at any offset is at most `3 · 255 = 765`. -/
theorem pixBrightSum_le (d : List ℕ) (hb : ∀ b ∈ d, b ≤ 255) (i : ℕ) :
    FacialAnalyzer.pixBrightSum d i ≤ 765 := by
  have h1 := getD_byte_le d hb i
  have h2 := getD_byte_le d hb (i + 1)
  have h3 := getD_byte_le d hb (i + 2)
  simp only [FacialAnalyzer.pixBrightSum]
  omega

/-- A list of naturals bounded by `n` sums to at most `length · n`. -/
theorem list_sum_le (l : List ℕ) (n : ℕ) (h : ∀ x ∈ l, x ≤ n) :
    l.sum ≤ l.length * n := by
  induction l with
  | nil => simp
  | cons a t ih =>
    simp only [List.sum_cons, List.length_cons]
    have := ih (fun x hx => h x (List.mem_cons_of_mem a hx))
    have ha := h a (List.mem_cons_self a t)
    calc a + t.sum ≤ n + t.length * n := by omega
      _ = (t.length + 1) * n := by ring

/-- A fractional coordinate at most 1 floors to at most the dimension. -/
theorem fracIdx_le (frac : ℚ) (dim : ℕ) (h : frac ≤ 1) :
    FacialAnalyzer.fracIdx frac dim ≤ dim := by
  simp only [FacialAnalyzer.fracIdx]
  have h1 : frac * (dim : ℚ) ≤ (dim : ℚ) := by
    nlinarith [Nat.cast_nonneg (α := ℚ) dim]
  have h2 : ⌊frac * (dim : ℚ)⌋ ≤ (dim : ℤ) := by
    calc ⌊frac * (dim : ℚ)⌋ ≤ ⌊(dim : ℚ)⌋ := Int.floor_le_floor h1
      _ = (dim : ℤ) := Int.floor_natCast dim
  omega

/-- Rounding a nonnegative rational is nonnegative. -/
theorem jsRound_nonneg (q : ℚ) (h : 0 ≤ q) : 0 ≤ jsRound q := by
  simp only [jsRound]
  exact Int.le_floor.mpr (by push_cast; linarith)

/-- Rounding a rational at most 255 gives at most 255. -/
theorem jsRound_le_255 (q : ℚ) (h : q ≤ 255) : jsRound q ≤ 255 := by
  simp only [jsRound]
  have h1 : ⌊q + 1 / 2⌋ ≤ ⌊(255 : ℚ) + 1 / 2⌋ := Int.floor_le_floor (by linarith)
  have h2 : ⌊(255 : ℚ) + 1 / 2⌋ = 255 := by norm_num
  omega

/-- C10: on every RGBA buffer (`length = 4·width·height`, bytes ≤ 255)
and fractional region bounds at most 1, the region-analysis helper is
safe: every byte offset it visits can be read together with its two
colour neighbours without going past the buffer, and the returned
brightness is an integer in `[0, 255]`, equal to 0 when the scanned
range is empty.  (The two divisions of the source are modelled by the
same `count > 0` guard and `max 1 count` denominator, so neither can
divide by zero.) -/
theorem analyzeRegion_safe (f : FacialAnalyzer.Frame) (startX startY endX endY : ℚ)
    (hlen : f.data.length = 4 * f.width * f.height)
    (hbytes : ∀ b ∈ f.data, b ≤ 255)
    (hex : endX ≤ 1) (hey : endY ≤ 1) :
    (∀ i ∈ FacialAnalyzer.regionIdxs f startX startY endX endY, i + 2 < f.data.length) ∧
    0 ≤ (FacialAnalyzer.analyzeRegion f startX startY endX endY).brightness ∧
    (FacialAnalyzer.analyzeRegion f startX startY endX endY).brightness ≤ 255 ∧
    (FacialAnalyzer.regionIdxs f startX startY endX endY = [] →
      (FacialAnalyzer.analyzeRegion f startX startY endX endY).brightness = 0) := by
  constructor
  · -- every visited offset is readable with its two neighbours
    intro i hi
    simp only [FacialAnalyzer.regionIdxs, List.mem_map, List.mem_range] at hi
    obtain ⟨k, hk, rfl⟩ := hi
    by_cases hwh : f.width = 0 ∨ f.height = 0
    · have hl0 : f.data.length = 0 := by rcases hwh with h | h <;> simp [hlen, h]
      simp only [hl0, Nat.min_zero] at hk
      omega
    · push_neg at hwh
      obtain ⟨hw, hh⟩ := hwh
      have hw1 : 1 ≤ f.width := Nat.pos_of_ne_zero hw
      have hh1 : 1 ≤ f.height := Nat.pos_of_ne_zero hh
      have hfx : FacialAnalyzer.fracIdx endX f.width ≤ f.width := fracIdx_le endX f.width hex
      have hfy : FacialAnalyzer.fracIdx endY f.height ≤ f.height := fracIdx_le endY f.height hey
      have hep : FacialAnalyzer.regionStop f endX endY ≤ f.height * f.width + f.width := by
        simp only [FacialAnalyzer.regionStop]
        have := Nat.mul_le_mul_right f.width hfy
        omega
      have hwA : f.width ≤ f.height * f.width := Nat.le_mul_of_pos_left f.width hh1
      have hlen' : f.data.length = 4 * (f.height * f.width) := by rw [hlen]; ring
      set sp := FacialAnalyzer.regionStart f startX startY with hsp
      set ep := FacialAnalyzer.regionStop f endX endY with hepd
      set A := f.height * f.width with hA
      omega
  · -- brightness bounds and the empty-range case
    simp only [FacialAnalyzer.analyzeRegion]
    set idxs := FacialAnalyzer.regionIdxs f startX startY endX endY with hidxs
    by_cases hc : 0 < idxs.length
    · have hTn : ((idxs.map (fun i => FacialAnalyzer.pixBrightSum f.data i)).sum : ℕ) ≤
          idxs.length * 765 := by
        have := list_sum_le (idxs.map (fun i => FacialAnalyzer.pixBrightSum f.data i)) 765 ?_
        · simpa using this
        · intro x hx
          obtain ⟨i, _, rfl⟩ := List.mem_map.mp hx
          exact pixBrightSum_le f.data hbytes i
      have hlenpos : (0 : ℚ) < 3 * (idxs.length : ℚ) := by
        have : (0 : ℚ) < (idxs.length : ℚ) := by exact_mod_cast hc
        linarith
      have havg_nonneg : (0 : ℚ) ≤
          ((idxs.map (fun i => FacialAnalyzer.pixBrightSum f.data i)).sum : ℚ) /
            (3 * (idxs.length : ℚ)) := by positivity
      have havg_le : ((idxs.map (fun i => FacialAnalyzer.pixBrightSum f.data i)).sum : ℚ) /
          (3 * (idxs.length : ℚ)) ≤ 255 := by
        rw [div_le_iff₀ hlenpos]
        have : ((idxs.map (fun i => FacialAnalyzer.pixBrightSum f.data i)).sum : ℚ) ≤
            (idxs.length : ℚ) * 765 := by exact_mod_cast hTn
        linarith
      refine ⟨?_, ?_, ?_⟩
      · rw [if_pos hc]; exact jsRound_nonneg _ havg_nonneg
      · rw [if_pos hc]; exact jsRound_le_255 _ havg_le
      · intro hnil; rw [hnil] at hc; simp at hc
    · refine ⟨?_, ?_, ?_⟩
      · rw [if_neg hc]; exact jsRound_nonneg 0 le_rfl
      · rw [if_neg hc]; exact jsRound_le_255 0 (by norm_num)
      · intro _; rw [if_neg hc]; simp [jsRound]
        norm_num

/-- C10 witness: the centre-region scan of a 4×4 RGBA buffer stays in
bounds and yields an in-range brightness. -/
theorem analyzeRegion_safe_witness :
    (⟨List.replicate 64 0, 4, 4⟩ : FacialAnalyzer.Frame).data.length =
      4 * (⟨List.replicate 64 0, 4, 4⟩ : FacialAnalyzer.Frame).width *
        (⟨List.replicate 64 0, 4, 4⟩ : FacialAnalyzer.Frame).height ∧
    (∀ b ∈ (List.replicate 64 0 : List ℕ), b ≤ 255) ∧
    (0.8 : ℚ) ≤ 1 ∧ (0.85 : ℚ) ≤ 1 ∧
    (∀ i ∈ FacialAnalyzer.regionIdxs ⟨List.replicate 64 0, 4, 4⟩ 0.2 0.15 0.8 0.85,
      i + 2 < (⟨List.replicate 64 0, 4, 4⟩ : FacialAnalyzer.Frame).data.length) ∧
    0 ≤ (FacialAnalyzer.analyzeRegion ⟨List.replicate 64 0, 4, 4⟩ 0.2 0.15 0.8 0.85).brightness ∧
    (FacialAnalyzer.analyzeRegion ⟨List.replicate 64 0, 4, 4⟩ 0.2 0.15 0.8 0.85).brightness ≤ 255 := by
  have H := analyzeRegion_safe ⟨List.replicate 64 0, 4, 4⟩ 0.2 0.15 0.8 0.85
    (by decide) (by decide) (by norm_num) (by norm_num)
  exact ⟨by decide, by decide, by norm_num, by norm_num, H.1, H.2.1, H.2.2.1⟩

/-- Single-step unfolding of the autocorrelation lag scan. -/
theorem acScanCode_succ (w : List ℕ) (lag n count : ℕ) :
    AudioAnalyzer.acScanCode w lag (n + 1) count =
      if AudioAnalyzer.corrAbovePoint9 w lag ∧ count = 0 then some lag
      else AudioAnalyzer.acScanCode w (lag + 1) n (count + 1) := rfl

/-- Once `count` is nonzero the scan can never return: the guard
`correlation > 0.9 && count === 0` is false at every later lag. -/
theorem acScanCode_none (w : List ℕ) :
    ∀ (fuel lag count : ℕ), count ≠ 0 → AudioAnalyzer.acScanCode w lag fuel count = none := by
  intro fuel
  induction fuel with
  | zero => intro lag count _; rfl
  | succ n ih =>
    intro lag count hc
    rw [acScanCode_succ, if_neg (by simp [hc])]
    exact ih (lag + 1) (count + 1) (by omega)

/-- The whole scan returns `some 10` if the gate fires at lag 10 and
`none` otherwise. -/
theorem acScanCode_val (w : List ℕ) :
    AudioAnalyzer.acScanCode w 10 1014 0 =
      (if AudioAnalyzer.corrAbovePoint9 w 10 then some 10 else none) := by
  rw [show (1014 : ℕ) = 1013 + 1 from rfl, acScanCode_succ]
  by_cases hg : AudioAnalyzer.corrAbovePoint9 w 10
  · rw [if_pos ⟨hg, rfl⟩, if_pos hg]
  · rw [if_neg (by simp [hg]), acScanCode_none w 1013 11 1 (by omega), if_neg hg]

/-- C1 (amended): for every window and sample rate, the autocorrelation
returns `(sampleRate/10)·2` when the correlation at the initial lag 10
exceeds 0.9 and `0` otherwise — the `count === 0` guard of the loop is
true only on the very first iteration, so no later lag can ever produce
a nonzero pitch, even if its correlation exceeds 0.9. -/
theorem pitch_only_first_lag (w : List ℕ) (rate : ℚ) :
    AudioAnalyzer.autoCorrelate w rate =
      (if AudioAnalyzer.corrAbovePoint9 w 10 then rate / 10 * 2 else 0) ∧
    AudioAnalyzer.calculatePitch w rate =
      (if AudioAnalyzer.corrAbovePoint9 w 10 then jsRound (rate / 10 * 2) else 0) := by
  have h1 : AudioAnalyzer.autoCorrelate w rate =
      (if AudioAnalyzer.corrAbovePoint9 w 10 then rate / 10 * 2 else 0) := by
    unfold AudioAnalyzer.autoCorrelate
    rw [acScanCode_val]
    by_cases hg : AudioAnalyzer.corrAbovePoint9 w 10
    · rw [if_pos hg, if_pos hg]
      norm_num
    · rw [if_neg hg, if_neg hg]
  refine ⟨h1, ?_⟩
  rw [AudioAnalyzer.calculatePitch, h1]
  by_cases hg : AudioAnalyzer.corrAbovePoint9 w 10
  · rw [if_pos hg, if_pos hg]
  · rw [if_neg hg, if_neg hg]
    norm_num [jsRound]

/-- C1 counterexample: a period-20 square wave (40 samples).  Its
correlation gate is false at lag 10 (the half-period anticorrelates) but
fires at lag 20, so the first lag whose correlation exceeds 0.9 is 20
and the claimed pitch is `round((44100/20)·2) = 4410` — yet the code
returns pitch 0, because only lag 10 can ever return. -/
theorem pitch_first_qualifying_lag_counterexample :
    AudioAnalyzer.calculatePitch
      [228,228,228,228,228,228,228,228,228,228, 28,28,28,28,28,28,28,28,28,28,
       228,228,228,228,228,228,228,228,228,228, 28,28,28,28,28,28,28,28,28,28]
      44100 = 0 ∧
    AudioAnalyzer.acScanFirst
      [228,228,228,228,228,228,228,228,228,228, 28,28,28,28,28,28,28,28,28,28,
       228,228,228,228,228,228,228,228,228,228, 28,28,28,28,28,28,28,28,28,28]
      10 1014 = some 20 ∧
    jsRound (AudioAnalyzer.autoCorrelateClaim
      [228,228,228,228,228,228,228,228,228,228, 28,28,28,28,28,28,28,28,28,28,
       228,228,228,228,228,228,228,228,228,228, 28,28,28,28,28,28,28,28,28,28]
      44100) = 4410 := by
  have g10 : AudioAnalyzer.corrAbovePoint9
      [228,228,228,228,228,228,228,228,228,228, 28,28,28,28,28,28,28,28,28,28,
       228,228,228,228,228,228,228,228,228,228, 28,28,28,28,28,28,28,28,28,28] 10 = false := by
    decide
  have gfirst : AudioAnalyzer.acScanFirst
      [228,228,228,228,228,228,228,228,228,228, 28,28,28,28,28,28,28,28,28,28,
       228,228,228,228,228,228,228,228,228,228, 28,28,28,28,28,28,28,28,28,28] 10 1014 = some 20 := by
    decide
  refine ⟨?_, gfirst, ?_⟩
  · unfold AudioAnalyzer.calculatePitch AudioAnalyzer.autoCorrelate
    rw [acScanCode_val, if_neg (by simp [g10])]
    norm_num [jsRound]
  · unfold AudioAnalyzer.autoCorrelateClaim
    rw [gfirst]
    norm_num [jsRound]

/-- C3 (amended): on every enabled audio tick with volume level at least
15, the returned clarity is the weighted blend
`0.4·speechFrequencyQuality + 0.3·volumeStability + 0.2·pitchStability
+ 0.1·(100-noiseLevel)` over the pre-push histories, multiplied by 0.5
exactly when the engine is not speaking (volume ≤ 40) and the volume
history holds *more than 5* entries (at least 6 — not the claimed "at
least 5"), then clamped to `[0,100]` and rounded. -/
theorem clarity_blend_formula (sq : ℚ → ℚ) (st : AudioAnalyzer.State)
    (inp : AudioAnalyzer.Input)
    (h15 : 15 ≤ AudioAnalyzer.calculateVolume inp.timeDomainData) :
    (AudioAnalyzer.analyze sq st true inp).1.clarity =
      jsRound (min 100 (max 0
        ((0.4 * AudioAnalyzer.analyzeSpeechFrequencies inp.frequencyData +
          0.3 * AudioAnalyzer.calculateVolumeStability sq st.volumeHistory +
          0.2 * AudioAnalyzer.calculatePitchStability sq st.clarityHistory +
          0.1 * (100 - AudioAnalyzer.estimateNoiseLevel st.volumeHistory)) *
          (if AudioAnalyzer.calculateVolume inp.timeDomainData ≤ 40 ∧
              5 < st.volumeHistory.length then 0.5 else 1)))) := by
  have key : ∀ a b : ℚ, a = b →
      jsRound (min 100 (max 0 a)) = jsRound (min 100 (max 0 b)) := by
    intro a b h; rw [h]
  simp only [AudioAnalyzer.analyze, if_true]
  simp only [AudioAnalyzer.calculateClarity]
  rw [if_neg (by omega)]
  set v := AudioAnalyzer.calculateVolume inp.timeDomainData with hv
  by_cases hc : v ≤ 40 ∧ 5 < st.volumeHistory.length
  · obtain ⟨hc1, hc2⟩ := hc
    have hds : AudioAnalyzer.detectSpeech v = false := by
      simp only [AudioAnalyzer.detectSpeech, decide_eq_false_iff_not]
      omega
    rw [if_pos ⟨hds, hc2⟩, if_pos ⟨hc1, hc2⟩]
    apply key
    ring
  · have hcond : ¬ (AudioAnalyzer.detectSpeech v = false ∧ 5 < st.volumeHistory.length) := by
      intro hx
      have hxs := hx.1
      simp only [AudioAnalyzer.detectSpeech, decide_eq_false_iff_not] at hxs
      exact hc ⟨by omega, hx.2⟩
    rw [if_neg hcond, if_neg hc]
    apply key
    ring

/-- Low band average of a uniform 25-bin snapshot held at 100. -/
theorem freqRange_low_eval :
    AudioAnalyzer.getFrequencyRange (List.replicate 25 100) 0 5 = 100 := by
  norm_num [AudioAnalyzer.getFrequencyRange]
  simp [show List.range' 0 5 = [0, 1, 2, 3, 4] from by decide, List.getElem?_replicate]
  norm_num

/-- Mid band average of a uniform 25-bin snapshot held at 100. -/
theorem freqRange_mid_eval :
    AudioAnalyzer.getFrequencyRange (List.replicate 25 100) 5 15 = 100 := by
  norm_num [AudioAnalyzer.getFrequencyRange]
  simp [show List.range' 5 10 = [5, 6, 7, 8, 9, 10, 11, 12, 13, 14] from by decide,
    List.getElem?_replicate]
  norm_num

/-- High band average of a uniform 25-bin snapshot held at 100. -/
theorem freqRange_high_eval :
    AudioAnalyzer.getFrequencyRange (List.replicate 25 100) 15 25 = 100 := by
  norm_num [AudioAnalyzer.getFrequencyRange]
  simp [show List.range' 15 10 = [15, 16, 17, 18, 19, 20, 21, 22, 23, 24] from by decide,
    List.getElem?_replicate]
  norm_num

/-- A flat spectrum gets the 0.7 non-speech penalty on the 50 ratio. -/
theorem sfq_flat_eval :
    AudioAnalyzer.analyzeSpeechFrequencies (List.replicate 25 100) = 35 := by
  norm_num [AudioAnalyzer.analyzeSpeechFrequencies, freqRange_low_eval,
    freqRange_mid_eval, freqRange_high_eval]

/-- Volume of the window with two unit deviations over 8 samples. -/
theorem volume_c3_eval :
    AudioAnalyzer.calculateVolume [129, 127, 128, 128, 128, 128, 128, 128] = 22 := by
  have hS : AudioAnalyzer.sumAbsDev [129, 127, 128, 128, 128, 128, 128, 128] = 2 := by decide
  have hsq : Nat.sqrt 1953 = 44 := by
    have h1 : 44 ≤ Nat.sqrt 1953 := Nat.le_sqrt.mpr (by norm_num)
    have h2 : Nat.sqrt 1953 < 45 := Nat.sqrt_lt.mpr (by norm_num)
    omega
  unfold AudioAnalyzer.calculateVolume
  rw [hS]
  have harg : 1000000 * 2 / (128 * ([129, 127, 128, 128, 128, 128, 128, 128] : List ℕ).length) = 1953 := by
    decide
  rw [harg, hsq]
  decide

/-- A constant 5-entry volume history has stability 100. -/
theorem volStab_c3_eval :
    AudioAnalyzer.calculateVolumeStability Rat.sqrt [20, 20, 20, 20, 20] = 100 := by
  norm_num [AudioAnalyzer.calculateVolumeStability, lastN, qSum,
    show Rat.sqrt 0 = 0 from by decide]

/-- A constant 3-entry clarity history has pitch stability 100. -/
theorem pitchStab_c3_eval :
    AudioAnalyzer.calculatePitchStability Rat.sqrt [50, 50, 50] = 100 := by
  norm_num [AudioAnalyzer.calculatePitchStability, lastN, qSum,
    show Rat.sqrt 0 = 0 from by decide]

/-- Noise level of the constant 5-entry volume history. -/
theorem noise_c3_eval :
    AudioAnalyzer.estimateNoiseLevel [20, 20, 20, 20, 20] = 30 := by
  norm_num [AudioAnalyzer.estimateNoiseLevel, lastN, listMin]

/-- C3 counterexample: with exactly 5 volume-history entries and volume
22 (so the engine is not speaking), the code returns clarity 71 — the
*unhalved* blend — while the claimed rule ("at least 5 entries") would
halve it to 36: the halving threshold is `> 5`, not `≥ 5`. -/
theorem clarity_halving_at_five_entries_counterexample :
    (AudioAnalyzer.analyze Rat.sqrt ⟨[20, 20, 20, 20, 20], [50, 50, 50], false⟩ true
      ⟨[129, 127, 128, 128, 128, 128, 128, 128], List.replicate 25 100, 44100, 0⟩).1.clarity = 71 ∧
    15 ≤ AudioAnalyzer.calculateVolume [129, 127, 128, 128, 128, 128, 128, 128] ∧
    AudioAnalyzer.calculateVolume [129, 127, 128, 128, 128, 128, 128, 128] ≤ 40 ∧
    ([(20 : ℚ), 20, 20, 20, 20] : List ℚ).length = 5 ∧
    jsRound (min 100 (max 0
      ((0.4 * AudioAnalyzer.analyzeSpeechFrequencies (List.replicate 25 100) +
        0.3 * AudioAnalyzer.calculateVolumeStability Rat.sqrt [20, 20, 20, 20, 20] +
        0.2 * AudioAnalyzer.calculatePitchStability Rat.sqrt [50, 50, 50] +
        0.1 * (100 - AudioAnalyzer.estimateNoiseLevel [20, 20, 20, 20, 20])) * 0.5))) = 36 := by
  have hclar : AudioAnalyzer.calculateClarity Rat.sqrt 22 (AudioAnalyzer.detectSpeech 22)
      [20, 20, 20, 20, 20] [50, 50, 50] (List.replicate 25 100) = 71 := by
    norm_num [AudioAnalyzer.calculateClarity, AudioAnalyzer.detectSpeech,
      sfq_flat_eval, volStab_c3_eval, pitchStab_c3_eval, noise_c3_eval, jsRound]
  refine ⟨?_, ?_, ?_, by decide, ?_⟩
  · simp only [AudioAnalyzer.analyze, if_true]
    simp only [volume_c3_eval]
    exact hclar
  · rw [volume_c3_eval]; omega
  · rw [volume_c3_eval]; omega
  · norm_num [sfq_flat_eval, volStab_c3_eval, pitchStab_c3_eval, noise_c3_eval, jsRound]

/-- C3 witness: the amended formula applied at the same concrete state,
whose volume 22 satisfies the ≥ 15 hypothesis. -/
theorem clarity_blend_formula_witness :
    15 ≤ AudioAnalyzer.calculateVolume [129, 127, 128, 128, 128, 128, 128, 128] ∧
    (AudioAnalyzer.analyze Rat.sqrt ⟨[20, 20, 20, 20, 20], [50, 50, 50], false⟩ true
      ⟨[129, 127, 128, 128, 128, 128, 128, 128], List.replicate 25 100, 44100, 0⟩).1.clarity =
      jsRound (min 100 (max 0
        ((0.4 * AudioAnalyzer.analyzeSpeechFrequencies (List.replicate 25 100) +
          0.3 * AudioAnalyzer.calculateVolumeStability Rat.sqrt [20, 20, 20, 20, 20] +
          0.2 * AudioAnalyzer.calculatePitchStability Rat.sqrt [50, 50, 50] +
          0.1 * (100 - AudioAnalyzer.estimateNoiseLevel [20, 20, 20, 20, 20])) *
          (if AudioAnalyzer.calculateVolume [129, 127, 128, 128, 128, 128, 128, 128] ≤ 40 ∧
              5 < ([(20 : ℚ), 20, 20, 20, 20] : List ℚ).length then 0.5 else 1)))) := by
  have h15 : 15 ≤ AudioAnalyzer.calculateVolume [129, 127, 128, 128, 128, 128, 128, 128] := by
    rw [volume_c3_eval]; omega
  exact ⟨h15, clarity_blend_formula Rat.sqrt ⟨[20, 20, 20, 20, 20], [50, 50, 50], false⟩
    ⟨[129, 127, 128, 128, 128, 128, 128, 128], List.replicate 25 100, 44100, 0⟩ h15⟩
